import Mathlib

/-!
Shallow embedding of `src/jkclient/client.py` (class `JupyterKernelClient`)
and the parts of `src/jkclient/schema.py` it uses.

The gateway (`kubernetes.client.CustomObjectsApi`) is external: each modelled
operation takes the gateway's outcome for the one call it issues as an
explicit argument, and returns, besides its result, the trace of gateway
calls it issued.  Python exceptions are modelled with `Except`.
-/

namespace JKClient

/-- A Python value, as far as the client inspects one: `None`, booleans,
integers, strings, lists and string-keyed dicts.  Container contents are
carried structurally. -/
inductive PyVal where
  | vNone
  | vBool (b : Bool)
  | vInt (n : Int)
  | vStr (s : String)
  | vList (xs : List PyVal)
  | vDict (kvs : List (String × PyVal))

/-- Python truthiness of a `PyVal` (`bool(v)`). -/
def pyTruthy : PyVal → Bool
  | .vNone => false
  | .vBool b => b
  | .vInt n => decide (n ≠ 0)
  | .vStr s => decide (s ≠ "")
  | .vList xs => match xs with | [] => false | _ => true
  | .vDict kvs => match kvs with | [] => false | _ => true

/-- Truthiness of `env.get(k)`: `None` (missing key) is falsy. -/
def pyTruthyOpt : Option PyVal → Bool
  | none => false
  | some v => pyTruthy v

/-- `str(v)` as used for f-string interpolation of kernel user / id /
namespace; only the scalar cases are ever interpolated by the client. -/
def pyStrOf : PyVal → String
  | .vNone => "None"
  | .vBool b => if b then "True" else "False"
  | .vInt n => toString n
  | .vStr s => s
  | .vList _ => "<list>"
  | .vDict _ => "<dict>"

/-- A Python `dict[str, Any]` kept as an ordered association list with the
dict invariant that keys are unique. -/
abbrev Env := List (String × PyVal)

/-- `env.get(k)` / `env[k]`: first binding of the key (dict keys are
unique, so first = only). -/
def envGet : Env → String → Option PyVal
  | [], _ => none
  | p :: rest, k => if p.1 = k then some p.2 else envGet rest k

/-- `env.pop(k, default)`'s effect on the mapping: the key is removed. -/
def envPop : Env → String → Env
  | [], _ => []
  | p :: rest, k => if p.1 = k then envPop rest k else p :: envPop rest k

/-- `timeout = timeout or self.timeout` (Python `or`: `0` and `None` both
fall back to the default). -/
def pyOrTimeout (t : Option Nat) (d : Nat) : Nat :=
  match t with
  | some n => if n = 0 then d else n
  | none => d

/-- `request.name or f"{kernel_user}-{kernel_id}"`. -/
def pyOrName (n : Option String) (fallback : String) : String :=
  match n with
  | some s => if s = "" then fallback else s
  | none => fallback

/-- One entry of `status.conditions`: a dict read with
`c.get("type")` / `c.get("status")`. -/
structure KCondition where
  type : Option String
  status : Option String
deriving DecidableEq

/-- A truthy `status` block of a kernel object; `conditions` is
`status.get("conditions", [])`'s key, `none` when absent. -/
structure KStatus where
  conditions : Option (List KCondition)
deriving DecidableEq

/-- The part of a watched kernel object the client reads:
`metadata.name`, `metadata.annotations`, and the `status` block
(`none` models both a missing and a falsy/empty `status`). -/
structure KObj where
  name : String
  annotations : List (String × String)
  status : Option KStatus
deriving DecidableEq

/-- `metadata.annotations.get(k)`. -/
def annGet (anns : List (String × String)) (k : String) : Option String :=
  (anns.find? (fun p => p.1 == k)).map (·.2)

/-- `KERNEL_ID` label/annotation key (client.py line 26). -/
def KERNEL_ID_KEY : String := "jupyter.org/kernel-id"

/-- `KERNEL_CONNECTION` annotation key (client.py line 27). -/
def KERNEL_CONNECTION_KEY : String := "jupyter.org/kernel-connection-info"

/-- `next((c for c in conditions if c.get("type") == "Ready"), None)`
(client.py lines 520-522): the first condition whose type is `"Ready"`. -/
def readyCondition (conds : List KCondition) : Option KCondition :=
  conds.find? (fun c => c.type == some "Ready")

/-- The readiness classifier (client.py lines 519-528): the first
`type == "Ready"` condition exists and its `status == "True"`. -/
def isReady (conds : List KCondition) : Bool :=
  match readyCondition conds with
  | some c => c.status == some "True"
  | none => false

/-- One streamed watch event; `elapsed` is `time.time() - start_time` at the
moment the loop's deadline check for this event runs. -/
structure WatchEvent where
  type : String
  object : KObj
  elapsed : Nat
deriving DecidableEq

/-- The body of the event test (client.py lines 513-528): `some obj` when
the event is `ADDED`/`MODIFIED`, names the target, carries a truthy status
and its conditions classify as ready; `none` otherwise (the loop falls
through to the deadline check). -/
def processEvent (e : WatchEvent) (name : String) : Option KObj :=
  if e.type = "ADDED" ∨ e.type = "MODIFIED" then
    if e.object.name = name then
      match e.object.status with
      | some st => if isReady (st.conditions.getD []) then some e.object else none
      | none => none
    else none
  else none

/-- Outcome of one gateway call: success, or an `ApiException` with
`e.status` and `e.reason` (raised for every non-2xx response). -/
inductive ApiResult (α : Type) where
  | ok (a : α)
  | apiError (status : Nat) (reason : String)

/-- Exceptions raised by the client: `ValueError` (validation),
`KernelCreationForbiddenError`, and `RuntimeError` (gateway errors and the
launch-timeout failure). -/
inductive JKError where
  | valueError (msg : String)
  | forbiddenError (msg : String)
  | runtimeError (msg : String)
deriving DecidableEq

/-- A gateway call observed in an operation's trace. -/
inductive GatewayCall where
  | createCall (ns name : String)
  | getCall (ns name : String)
  | deleteCall (ns name : String)
  | watchCall (ns : String) (timeoutSeconds : Nat)
deriving DecidableEq

/-- `delete` (client.py lines 360-391): not-found is swallowed, any other
`ApiException` becomes a `RuntimeError` with status and reason. -/
def delete (outcome : ApiResult Unit) : Except JKError Unit :=
  match outcome with
  | .ok _ => .ok ()
  | .apiError status reason =>
      if status = 404 then .ok ()
      else .error (.runtimeError ("Error deleting kernel: " ++ toString status ++ "\n" ++ reason))

/-- `n` successive `delete` calls with the same gateway outcome. -/
def deleteRepeat : Nat → ApiResult Unit → List (Except JKError Unit)
  | 0, _ => []
  | n + 1, o => delete o :: deleteRepeat n o

/-- Result of `_wait_for_kernel_ready`: the ready object, or `False`. -/
inductive WaitResult where
  | ready (obj : KObj)
  | notReady
deriving DecidableEq

/-- The `for event in w.stream(...)` loop of `_wait_for_kernel_ready`
(client.py lines 504-534): per event, the ready test, then the deadline
check `time.time() - start_time > timeout`, which on expiry issues a
`delete` (whose own failure propagates) and returns `False`; stream
exhaustion falls through to `return False` (line 538). -/
def waitLoop (dOut : ApiResult Unit) (ns name : String) (tmo : Nat) :
    List WatchEvent → Except JKError WaitResult × List GatewayCall
  | [] => (.ok .notReady, [])
  | e :: rest =>
    match processEvent e name with
    | some obj => (.ok (.ready obj), [])
    | none =>
      if tmo < e.elapsed then
        match delete dOut with
        | .ok _ => (.ok .notReady, [.deleteCall ns name])
        | .error err => (.error err, [.deleteCall ns name])
      else waitLoop dOut ns name tmo rest

/-- The default of `_wait_for_kernel_ready`'s `timeout` parameter
(client.py line 488); its callers `get`/`aget` never pass the argument. -/
def wait_default_timeout : Nat := 60

structure WaitOutput where
  result : Except JKError WaitResult
  calls : List GatewayCall

/-- `_wait_for_kernel_ready` (client.py lines 487-538): opens the watch
stream bounded by `timeout_seconds = timeout` and runs the event loop. -/
def wait_for_kernel_ready (dOut : ApiResult Unit) (ns name : String)
    (tmo : Nat) (events : List WatchEvent) : WaitOutput :=
  let r := waitLoop dOut ns name tmo events
  ⟨r.1, .watchCall ns tmo :: r.2⟩

/-- `schema.Kernel`: the caller-facing result. `conn_info_raw` keeps the raw
`jupyter.org/kernel-connection-info` annotation (`get` JSON-decodes a
present, truthy value; the decode itself is outside the modelled core). -/
structure KernelSchema where
  name : String
  kernel_id : String
  conn_info_raw : Option String
deriving DecidableEq

/-- An operation's outcome plus its gateway-call trace. -/
structure OpOutput where
  result : Except JKError KernelSchema
  calls : List GatewayCall

/-- `get` (client.py lines 264-309): fetch the object (any `ApiException`
becomes a `RuntimeError` with status and reason), then enter
`_wait_for_kernel_ready` — called without a `timeout` argument, so the
watch is bounded by `wait_default_timeout`, not by this call's `timeout`.
A falsy wait result raises the launch-timeout `RuntimeError`, whose message
interpolates `self.timeout` (the client-wide default). -/
def get (getOut : ApiResult KObj) (dOut : ApiResult Unit) (clientTimeout : Nat)
    (name ns : String) (timeout : Option Nat) (events : List WatchEvent) :
    OpOutput :=
  let _t := pyOrTimeout timeout clientTimeout
  match getOut with
  | .apiError s reason =>
    ⟨.error (.runtimeError ("Error getting kernel: " ++ toString s ++ "\n" ++ reason)),
     [.getCall ns name]⟩
  | .ok _ =>
    let w := wait_for_kernel_ready dOut ns name wait_default_timeout events
    match w.result with
    | .error err => ⟨.error err, .getCall ns name :: w.calls⟩
    | .ok (.ready obj) =>
      ⟨.ok ⟨name, (annGet obj.annotations KERNEL_ID_KEY).getD "",
            annGet obj.annotations KERNEL_CONNECTION_KEY⟩,
       .getCall ns name :: w.calls⟩
    | .ok .notReady =>
      ⟨.error (.runtimeError ("Kernel launch timeout. Waited too long ("
          ++ toString clientTimeout ++ ") to get connection info.")),
       .getCall ns name :: w.calls⟩

/-- `schema.CreateKernelRequest`, after pydantic validation: an optional
name and the env mapping. -/
structure CreateKernelRequest where
  name : Option String
  env : Env

/-- `kernel_name` (client.py line 110). -/
def kernelName (req : CreateKernelRequest) : String :=
  pyOrName req.name
    (pyStrOf ((envGet req.env "KERNEL_USERNAME").getD (.vStr "jovyan")) ++ "-"
      ++ pyStrOf ((envGet req.env "KERNEL_ID").getD .vNone))

/-- `kernel_namespace` (client.py line 111). -/
def kernelNamespace (req : CreateKernelRequest) : String :=
  pyStrOf ((envGet req.env "KERNEL_NAMESPACE").getD (.vStr "default"))

/-- `create`'s outcome: result, gateway-call trace, the caller's
`request.env` after `create`'s in-place `pop`s, and the `{name, value}`
pairs placed in the built body's container `env`. -/
structure CreateOutput where
  result : Except JKError KernelSchema
  calls : List GatewayCall
  envAfter : Env
  containerEnv : Env

/-- `create` (client.py lines 80-171): validate `KERNEL_IMAGE` /
`KERNEL_ID` by truthiness before any gateway call, pop the two volume keys
out of `request.env` in place, build the body (its container env is the
popped mapping), submit the create call, then classify: 409 redirects to
`get` for the same name, 403 raises `KernelCreationForbiddenError`, any
other `ApiException` raises `RuntimeError` with status and reason; on
success transition to `get`. -/
def create (createOut : ApiResult Unit) (getOut : ApiResult KObj)
    (dOut : ApiResult Unit) (clientTimeout : Nat) (req : CreateKernelRequest)
    (timeout : Option Nat) (events : List WatchEvent) : CreateOutput :=
  let _t := pyOrTimeout timeout clientTimeout
  let env := req.env
  if pyTruthyOpt (envGet env "KERNEL_IMAGE") = false then
    ⟨.error (.valueError "`KERNEL_IMAGE` must be specified"), [], env, []⟩
  else if pyTruthyOpt (envGet env "KERNEL_ID") = false then
    ⟨.error (.valueError "`KERNEL_ID` must be specified"), [], env, []⟩
  else
    let kernel_name := kernelName req
    let kernel_namespace := kernelNamespace req
    let env2 := envPop (envPop env "KERNEL_VOLUMES") "KERNEL_VOLUME_MOUNTS"
    match createOut with
    | .apiError s reason =>
      if s = 409 then
        let g := get getOut dOut clientTimeout kernel_name kernel_namespace none events
        ⟨g.result, .createCall kernel_namespace kernel_name :: g.calls, env2, env2⟩
      else if s = 403 then
        ⟨.error (.forbiddenError
            "Kernel creation is forbidden (403). Check permissions or resource quota limits."),
         [.createCall kernel_namespace kernel_name], env2, env2⟩
      else
        ⟨.error (.runtimeError ("Error creating kernel: " ++ toString s ++ "\n" ++ reason)),
         [.createCall kernel_namespace kernel_name], env2, env2⟩
    | .ok _ =>
      let g := get getOut dOut clientTimeout kernel_name kernel_namespace none events
      ⟨g.result, .createCall kernel_namespace kernel_name :: g.calls, env2, env2⟩

/-- Whether a trace entry is the delete call for `ns`/`name`. -/
def isDeleteCallFor (ns name : String) : GatewayCall → Bool
  | .deleteCall ns' n' => ns' == ns && n' == name
  | _ => false

/-- Number of `deleteCall ns name` entries in a trace. -/
def countDelete (calls : List GatewayCall) (ns name : String) : Nat :=
  (calls.filter (isDeleteCallFor ns name)).length

/-- Whether a trace entry is a create call. -/
def isCreateCall : GatewayCall → Bool
  | .createCall _ _ => true
  | _ => false

/-- Number of `createCall` entries (any target) in a trace. -/
def countCreate (calls : List GatewayCall) : Nat :=
  (calls.filter isCreateCall).length

/-- Outcome of a Python constructor application `klass(data)`:
a value, or one of the exception kinds a primitive constructor can raise. -/
inductive ConsResult where
  | ok (v : PyVal)
  | typeError
  | valueError
  | unicodeEncodeError

/-- The uncaught exception of `__deserialize_primitive`. -/
inductive PyExc where
  | valueError
deriving DecidableEq

/-- `six.text_type(data)` = `str(data)`. -/
def six_text_type (v : PyVal) : PyVal := .vStr (pyStrOf v)

/-- `__deserialize_primitive` (client.py lines 610-623): try `klass(data)`;
catch `UnicodeEncodeError` with a text coercion and `TypeError` by
returning the raw input; every other exception (notably `ValueError`)
propagates. -/
def deserialize_primitive (construct : PyVal → ConsResult) (data : PyVal) :
    Except PyExc PyVal :=
  match construct data with
  | .ok v => .ok v
  | .unicodeEncodeError => .ok (six_text_type data)
  | .typeError => .ok data
  | .valueError => .error .valueError

/-- Accumulate a decimal digit string; `none` on any non-digit. -/
def parseDigitsAux : List Char → Nat → Option Nat
  | [], acc => some acc
  | c :: rest, acc =>
    if c.isDigit then parseDigitsAux rest (acc * 10 + (c.toNat - 48)) else none

/-- At least one decimal digit. -/
def parsePyNat : List Char → Option Nat
  | [] => none
  | l => parseDigitsAux l 0

/-- CPython `int(str)` for a plain decimal literal with an optional sign
(surrounding whitespace and underscores are not modelled; no wire input
here carries them). -/
def parsePyInt (s : String) : Option Int :=
  match s.data with
  | '-' :: rest => (parsePyNat rest).map (fun n => -(n : Int))
  | '+' :: rest => (parsePyNat rest).map (fun n => (n : Int))
  | l => (parsePyNat l).map (fun n => (n : Int))

/-- CPython `int(data)` for the shapes a wire payload can carry: ints and
bools convert, a string parses as a decimal integer literal or raises
`ValueError`, and `None`/lists/dicts raise `TypeError`. -/
def int_construct : PyVal → ConsResult
  | .vInt n => .ok (.vInt n)
  | .vBool b => .ok (.vInt (if b then 1 else 0))
  | .vStr s =>
    match parsePyInt s with
    | some n => .ok (.vInt n)
    | none => .valueError
  | .vNone => .typeError
  | .vList _ => .typeError
  | .vDict _ => .typeError

/-! Helper lemmas. -/

theorem envGet_envPop_self (env : Env) (k : String) : envGet (envPop env k) k = none := by
  induction env with
  | nil => rfl
  | cons p rest ih =>
    by_cases h : p.1 = k
    · simpa [envPop, h] using ih
    · simpa [envPop, envGet, h] using ih

theorem envGet_envPop_other (env : Env) (k k' : String) (h : k' ≠ k) :
    envGet (envPop env k) k' = envGet env k' := by
  induction env with
  | nil => rfl
  | cons p rest ih =>
    by_cases hp : p.1 = k
    · have hp' : p.1 ≠ k' := fun hc => h (hc ▸ hp)
      simpa [envPop, envGet, hp, hp', Ne.symm h] using ih
    · by_cases hk : p.1 = k'
      · simp [envPop, envGet, hp, hk, h]
      · simpa [envPop, envGet, hp, hk] using ih

theorem fst_ne_of_mem_envPop (env : Env) (k : String) (p : String × PyVal)
    (hp : p ∈ envPop env k) : p.1 ≠ k := by
  induction env with
  | nil => exact absurd hp (List.not_mem_nil p)
  | cons q rest ih =>
    by_cases hq : q.1 = k
    · exact ih (by simpa [envPop, hq] using hp)
    · rcases (by simpa [envPop, hq] using hp : p = q ∨ p ∈ envPop rest k) with h1 | h2
      · exact h1 ▸ hq
      · exact ih h2

theorem mem_of_mem_envPop (env : Env) (k : String) (p : String × PyVal)
    (hp : p ∈ envPop env k) : p ∈ env := by
  induction env with
  | nil => exact absurd hp (List.not_mem_nil p)
  | cons q rest ih =>
    by_cases hq : q.1 = k
    · exact List.mem_cons_of_mem _ (ih (by simpa [envPop, hq] using hp))
    · rcases (by simpa [envPop, hq] using hp : p = q ∨ p ∈ envPop rest k) with h1 | h2
      · exact h1 ▸ List.mem_cons_self q rest
      · exact List.mem_cons_of_mem _ (ih h2)

theorem waitLoop_cons (dOut : ApiResult Unit) (ns name : String) (tmo : Nat)
    (e : WatchEvent) (rest : List WatchEvent) :
    waitLoop dOut ns name tmo (e :: rest) =
      match processEvent e name with
      | some obj => (.ok (.ready obj), [])
      | none =>
        if tmo < e.elapsed then
          match delete dOut with
          | .ok _ => (.ok .notReady, [.deleteCall ns name])
          | .error err => (.error err, [.deleteCall ns name])
        else waitLoop dOut ns name tmo rest := rfl

theorem processEvent_skip_of_no_status (e : WatchEvent) (name : String)
    (h : e.object.status = none) : processEvent e name = none := by
  unfold processEvent
  rw [h]
  split
  · split <;> rfl
  · rfl

theorem processEvent_ready (e : WatchEvent) (name : String) (st : KStatus)
    (h1 : e.type = "ADDED" ∨ e.type = "MODIFIED") (h2 : e.object.name = name)
    (h3 : e.object.status = some st) (h4 : isReady (st.conditions.getD []) = true) :
    processEvent e name = some e.object := by
  unfold processEvent
  rw [if_pos h1, if_pos h2, h3]
  simp [h4]

theorem waitLoop_deletes (dOut : ApiResult Unit) (ns name : String) (tmo : Nat)
    (events : List WatchEvent) (h : ∀ e ∈ events, processEvent e name = none) :
    countDelete (waitLoop dOut ns name tmo events).2 ns name =
      (if events.any (fun e => decide (tmo < e.elapsed)) then 1 else 0) := by
  induction events with
  | nil => rfl
  | cons e rest ih =>
    have he := h e (List.mem_cons_self e rest)
    have hrest : ∀ e' ∈ rest, processEvent e' name = none :=
      fun e' h' => h e' (List.mem_cons_of_mem _ h')
    unfold waitLoop
    rw [he]
    by_cases hl : tmo < e.elapsed
    · rw [if_pos hl]
      cases hd : delete dOut <;>
        simp [countDelete, isDeleteCallFor, List.any_cons, hl]
    · rw [if_neg hl]
      simpa [List.any_cons, hl] using ih hrest

theorem waitLoop_notReady (dOut : ApiResult Unit) (ns name : String) (tmo : Nat)
    (events : List WatchEvent) (h : ∀ e ∈ events, processEvent e name = none)
    (h2 : ∀ e ∈ events, e.elapsed ≤ tmo) :
    waitLoop dOut ns name tmo events = (.ok .notReady, []) := by
  induction events with
  | nil => rfl
  | cons e rest ih =>
    unfold waitLoop
    rw [h e (List.mem_cons_self e rest),
      if_neg (Nat.not_lt.mpr (h2 e (List.mem_cons_self e rest)))]
    exact ih (fun e' h' => h e' (List.mem_cons_of_mem _ h'))
      (fun e' h' => h2 e' (List.mem_cons_of_mem _ h'))

theorem countCreate_waitLoop (dOut : ApiResult Unit) (ns name : String) (tmo : Nat)
    (events : List WatchEvent) :
    countCreate (waitLoop dOut ns name tmo events).2 = 0 := by
  induction events with
  | nil => rfl
  | cons e rest ih =>
    unfold waitLoop
    cases hp : processEvent e name with
    | none =>
      by_cases hl : tmo < e.elapsed
      · rw [if_pos hl]
        cases hd : delete dOut <;> rfl
      · rw [if_neg hl]
        exact ih
    | some obj => rfl

theorem get_calls_ok (obj : KObj) (dOut : ApiResult Unit) (clientT : Nat)
    (name ns : String) (o : Option Nat) (events : List WatchEvent) :
    (get (.ok obj) dOut clientT name ns o events).calls =
      .getCall ns name :: .watchCall ns wait_default_timeout ::
        (waitLoop dOut ns name wait_default_timeout events).2 := by
  unfold get wait_for_kernel_ready
  rcases hr : (waitLoop dOut ns name wait_default_timeout events).1 with err | r
  · simp [hr]
  · rcases r with obj' | _ <;> simp [hr]

theorem countCreate_get (gOut : ApiResult KObj) (dOut : ApiResult Unit) (clientT : Nat)
    (name ns : String) (o : Option Nat) (events : List WatchEvent) :
    countCreate (get gOut dOut clientT name ns o events).calls = 0 := by
  cases gOut with
  | apiError s reason => rfl
  | ok obj =>
    rw [get_calls_ok]
    simpa [countCreate, isCreateCall] using countCreate_waitLoop dOut ns name wait_default_timeout events

theorem create_env_fields (createOut : ApiResult Unit) (getOut : ApiResult KObj)
    (dOut : ApiResult Unit) (clientT : Nat) (req : CreateKernelRequest)
    (o : Option Nat) (events : List WatchEvent)
    (himg : pyTruthyOpt (envGet req.env "KERNEL_IMAGE") = true)
    (hid : pyTruthyOpt (envGet req.env "KERNEL_ID") = true) :
    (create createOut getOut dOut clientT req o events).envAfter =
      envPop (envPop req.env "KERNEL_VOLUMES") "KERNEL_VOLUME_MOUNTS" ∧
    (create createOut getOut dOut clientT req o events).containerEnv =
      envPop (envPop req.env "KERNEL_VOLUMES") "KERNEL_VOLUME_MOUNTS" := by
  unfold create
  rw [if_neg (by simp [himg]), if_neg (by simp [hid])]
  cases createOut with
  | ok _ => exact ⟨rfl, rfl⟩
  | apiError s reason =>
    dsimp only
    split_ifs <;> exact ⟨rfl, rfl⟩

/-! Claim theorems. -/

/-- C1 (counterexample): the claim's classifier — ready iff `conditions`
CONTAINS a `type == "Ready"` condition with `status == "True"` — is false on
the code: with conditions `[{Ready, False}, {Ready, True}]` such a condition
is contained, yet the code inspects only the FIRST `Ready` condition and
declares the object not ready. -/
theorem C1_counterexample :
    (∃ c ∈ ([⟨some "Ready", some "False"⟩, ⟨some "Ready", some "True"⟩] : List KCondition),
      c.type = some "Ready" ∧ c.status = some "True") ∧
    isReady [⟨some "Ready", some "False"⟩, ⟨some "Ready", some "True"⟩] = false :=
  ⟨⟨⟨some "Ready", some "True"⟩, by simp, rfl, rfl⟩, rfl⟩

/-- C1 (amended): the readiness classifier declares a resource ready iff
the FIRST condition with `type == "Ready"` exists and has
`status == "True"`; `[{Ready,False}]` and `[{Other,True}]` are not ready,
`[{Ready,True}]` is; a matching ADDED/MODIFIED event without a status block
is skipped (the loop continues on the remaining events), while a matching
event whose status classifies ready terminates the loop with the object. -/
theorem C1_ready_classifier :
    (∀ conds : List KCondition, isReady conds = true ↔
      ∃ c, readyCondition conds = some c ∧ c.status = some "True") ∧
    isReady [⟨some "Ready", some "False"⟩] = false ∧
    isReady [⟨some "Other", some "True"⟩] = false ∧
    isReady [⟨some "Ready", some "True"⟩] = true ∧
    (∀ (dOut : ApiResult Unit) (ns name : String) (tmo : Nat) (e : WatchEvent)
        (rest : List WatchEvent),
      e.type = "ADDED" ∨ e.type = "MODIFIED" → e.object.name = name →
      e.object.status = none → e.elapsed ≤ tmo →
      wait_for_kernel_ready dOut ns name tmo (e :: rest) =
        wait_for_kernel_ready dOut ns name tmo rest) ∧
    (∀ (dOut : ApiResult Unit) (ns name : String) (tmo : Nat) (e : WatchEvent)
        (rest : List WatchEvent) (st : KStatus),
      e.type = "ADDED" ∨ e.type = "MODIFIED" → e.object.name = name →
      e.object.status = some st → isReady (st.conditions.getD []) = true →
      (wait_for_kernel_ready dOut ns name tmo (e :: rest)).result =
        .ok (.ready e.object)) := by
  refine ⟨fun conds => ?_, rfl, rfl, rfl, ?_, ?_⟩
  · unfold isReady
    cases h : readyCondition conds with
    | none => simp [h]
    | some c => simp [h]
  · intro dOut ns name tmo e rest h1 h2 h3 h4
    have hskip : waitLoop dOut ns name tmo (e :: rest) = waitLoop dOut ns name tmo rest := by
      simp [waitLoop_cons, processEvent_skip_of_no_status e name h3, Nat.not_lt.mpr h4]
    simp [wait_for_kernel_ready, hskip]
  · intro dOut ns name tmo e rest st h1 h2 h3 h4
    simp [wait_for_kernel_ready, waitLoop_cons, processEvent_ready e name st h1 h2 h3 h4]

/-- C1 (witness): the skip and ready clauses of `C1_ready_classifier` at
concrete events. -/
theorem C1_ready_classifier_witness :
    wait_for_kernel_ready (.ok ()) "default" "k" 60
        [⟨"ADDED", ⟨"k", [], none⟩, 1⟩] =
      wait_for_kernel_ready (.ok ()) "default" "k" 60 [] ∧
    (wait_for_kernel_ready (.ok ()) "default" "k" 60
        [⟨"MODIFIED", ⟨"k", [], some ⟨some [⟨some "Ready", some "True"⟩]⟩⟩, 1⟩]).result =
      .ok (.ready ⟨"k", [], some ⟨some [⟨some "Ready", some "True"⟩]⟩⟩) ∧
    isReady [⟨some "Ready", some "True"⟩] = true :=
  ⟨C1_ready_classifier.2.2.2.2.1 (.ok ()) "default" "k" 60
      ⟨"ADDED", ⟨"k", [], none⟩, 1⟩ [] (Or.inl rfl) rfl rfl (by decide),
   C1_ready_classifier.2.2.2.2.2 (.ok ()) "default" "k" 60
      ⟨"MODIFIED", ⟨"k", [], some ⟨some [⟨some "Ready", some "True"⟩]⟩⟩, 1⟩ []
      ⟨some [⟨some "Ready", some "True"⟩]⟩ (Or.inr rfl) rfl rfl rfl,
   C1_ready_classifier.2.2.2.1⟩

/-- C7: `delete` is idempotent with respect to absence — a 404 gateway
outcome returns normally, any number of repeated deletes of an absent name
never raise, and every other error status raises a `RuntimeError` carrying
the upstream status and reason. -/
theorem C7_delete_idempotent :
    (∀ reason : String, delete (.apiError 404 reason) = .ok ()) ∧
    (∀ (n : Nat) (reason : String),
      deleteRepeat n (.apiError 404 reason) = List.replicate n (.ok ())) ∧
    (∀ (s : Nat) (reason : String), s ≠ 404 →
      delete (.apiError s reason) =
        .error (.runtimeError ("Error deleting kernel: " ++ toString s ++ "\n" ++ reason))) := by
  refine ⟨fun reason => rfl, fun n reason => ?_, fun s reason hs => by simp [delete, hs]⟩
  induction n with
  | zero => rfl
  | succ n ih => simp [deleteRepeat, ih, delete, List.replicate_succ]

/-- C7 (witness): `C7_delete_idempotent` at 404 twice and at 500. -/
theorem C7_delete_idempotent_witness :
    deleteRepeat 2 (.apiError 404 "Not Found") = List.replicate 2 (.ok ()) ∧
    delete (.apiError 500 "Internal Server Error") =
      .error (.runtimeError ("Error deleting kernel: " ++ toString (500 : Nat)
        ++ "\n" ++ "Internal Server Error")) :=
  ⟨C7_delete_idempotent.2.1 2 "Not Found",
   C7_delete_idempotent.2.2 500 "Internal Server Error" (by decide)⟩

/-- C8: `get` follows the "raise" policy for every gateway error on the
fetch, not-found included: the fetch error becomes a `RuntimeError`
carrying the upstream status and reason, no call past the fetch is made,
and nothing is ever returned in place of a raise. -/
theorem C8_get_raise_policy (s : Nat) (reason : String) (dOut : ApiResult Unit)
    (clientT : Nat) (name ns : String) (o : Option Nat) (events : List WatchEvent) :
    (get (.apiError s reason) dOut clientT name ns o events).result =
      .error (.runtimeError ("Error getting kernel: " ++ toString s ++ "\n" ++ reason)) ∧
    (get (.apiError s reason) dOut clientT name ns o events).calls = [.getCall ns name] ∧
    ∀ k : KernelSchema,
      (get (.apiError s reason) dOut clientT name ns o events).result ≠ .ok k := by
  refine ⟨rfl, rfl, fun k h => ?_⟩
  simp [get] at h

/-- C8 (witness): `C8_get_raise_policy` at a 404 fetch outcome. -/
theorem C8_get_raise_policy_witness :
    (get (.apiError 404 "Not Found") (.ok ()) 60 "k" "default" none []).result =
      .error (.runtimeError ("Error getting kernel: " ++ toString (404 : Nat)
        ++ "\n" ++ "Not Found")) ∧
    (get (.apiError 404 "Not Found") (.ok ()) 60 "k" "default" none []).calls =
      [.getCall "default" "k"] :=
  ⟨(C8_get_raise_policy 404 "Not Found" (.ok ()) 60 "k" "default" none []).1,
   (C8_get_raise_policy 404 "Not Found" (.ok ()) 60 "k" "default" none []).2.1⟩

/-- C9 (counterexample): the claim that primitive deserialization never
raises is false on the code: a non-numeric string under the integer
descriptor makes the constructor raise `ValueError`, which
`__deserialize_primitive` does not catch (it catches only
`UnicodeEncodeError` and `TypeError`), so the input is not returned
unchanged. -/
theorem C9_counterexample :
    deserialize_primitive int_construct (.vStr "abc") = .error .valueError ∧
    deserialize_primitive int_construct (.vStr "abc") ≠ .ok (.vStr "abc") := by
  refine ⟨rfl, fun h => ?_⟩
  exact Except.noConfusion
    ((rfl : deserialize_primitive int_construct (.vStr "abc") = .error .valueError).symm.trans h)

/-- C9 (amended): primitive deserialization attempts direct construction,
falls back to text coercion on a unicode-encoding failure, and returns the
raw input unchanged on a `TypeError`; but a `ValueError` raised by the
constructor propagates, so it can raise — e.g. for a non-numeric string
given the integer descriptor. -/
theorem C9_primitive_best_effort (construct : PyVal → ConsResult) (data : PyVal) :
    (∀ v : PyVal, construct data = .ok v →
      deserialize_primitive construct data = .ok v) ∧
    (construct data = .unicodeEncodeError →
      deserialize_primitive construct data = .ok (six_text_type data)) ∧
    (construct data = .typeError → deserialize_primitive construct data = .ok data) ∧
    (construct data = .valueError →
      deserialize_primitive construct data = .error .valueError) := by
  refine ⟨fun v h => ?_, fun h => ?_, fun h => ?_, fun h => ?_⟩ <;>
    simp [deserialize_primitive, h]

/-- C9 (witness): `C9_primitive_best_effort` with the integer constructor
on a numeric string, `None` (TypeError → raw input), and a non-numeric
string (ValueError → propagates). -/
theorem C9_primitive_best_effort_witness :
    deserialize_primitive int_construct (.vStr "42") = .ok (.vInt 42) ∧
    deserialize_primitive int_construct .vNone = .ok .vNone ∧
    deserialize_primitive int_construct (.vStr "abc") = .error .valueError :=
  ⟨(C9_primitive_best_effort int_construct (.vStr "42")).1 (.vInt 42) rfl,
   (C9_primitive_best_effort int_construct .vNone).2.2.1 rfl,
   (C9_primitive_best_effort int_construct (.vStr "abc")).2.2.2 rfl⟩

/-- C2 (counterexample): the claim — every run with no ready event fails
with a `TimeoutError` and exactly one delete, including the zero-event run
— is false on the code: on a stream that delivers zero events the loop
body never executes, so no delete at all is issued, and the caller raises
a generic `RuntimeError` naming the client-wide default. -/
theorem C2_counterexample :
    countDelete (get (.ok ⟨"k", [], none⟩) (.ok ()) 60 "k" "default" none []).calls
      "default" "k" = 0 ∧
    (0 : Nat) ≠ 1 ∧
    (get (.ok ⟨"k", [], none⟩) (.ok ()) 60 "k" "default" none []).result =
      .error (.runtimeError ("Kernel launch timeout. Waited too long ("
        ++ toString (60 : Nat) ++ ") to get connection info.")) :=
  ⟨rfl, by decide, rfl⟩

/-- C2 (amended): in a run of the watch loop in which no event satisfies
the readiness predicate, the cleanup delete for the target name is issued
exactly once if some event arrives after the deadline and zero times
otherwise (in particular zero times on a zero-event stream); when the
stream ends without any post-deadline event, `get` fails with a
`RuntimeError` whose message names the client-wide default timeout. -/
theorem C2_timeout_behavior (dOut : ApiResult Unit) (getObj : KObj) (clientT : Nat)
    (name ns : String) (o : Option Nat) (events : List WatchEvent)
    (h : ∀ e ∈ events, processEvent e name = none) :
    countDelete (wait_for_kernel_ready dOut ns name wait_default_timeout events).calls
      ns name =
      (if events.any (fun e => decide (wait_default_timeout < e.elapsed)) then 1 else 0) ∧
    ((∀ e ∈ events, e.elapsed ≤ wait_default_timeout) →
      (get (.ok getObj) dOut clientT name ns o events).result =
        .error (.runtimeError ("Kernel launch timeout. Waited too long ("
          ++ toString clientT ++ ") to get connection info."))) := by
  constructor
  · have hd := waitLoop_deletes dOut ns name wait_default_timeout events h
    simpa [wait_for_kernel_ready, countDelete, isDeleteCallFor] using hd
  · intro h2
    have hw := waitLoop_notReady dOut ns name wait_default_timeout events h h2
    simp [get, wait_for_kernel_ready, hw]

/-- C2 (witness): `C2_timeout_behavior` on the concrete zero-event run. -/
theorem C2_timeout_behavior_witness :
    countDelete (wait_for_kernel_ready (.ok ()) "default" "k" wait_default_timeout []).calls
      "default" "k" =
      (if ([] : List WatchEvent).any (fun e => decide (wait_default_timeout < e.elapsed))
        then 1 else 0) ∧
    (get (.ok ⟨"k", [], none⟩) (.ok ()) 60 "k" "default" none []).result =
      .error (.runtimeError ("Kernel launch timeout. Waited too long ("
        ++ toString (60 : Nat) ++ ") to get connection info.")) := by
  have h := C2_timeout_behavior (.ok ()) ⟨"k", [], none⟩ 60 "k" "default" none [] (by simp)
  exact ⟨h.1, h.2 (by simp)⟩

/-- C5: evidence for the code bug — the watch-for-ready protocol entered
by `get`/`create` is bounded by the hard-coded default `60` of
`_wait_for_kernel_ready` (its callers never forward a timeout), not by the
per-call timeout falling back to the client-wide default as claimed: with
a client default of 120 (or a per-call timeout of 300) the watch is still
opened with bound 60. -/
theorem C5_watch_bound_constant :
    (∀ (obj : KObj) (dOut : ApiResult Unit) (clientT : Nat) (name ns : String)
        (o : Option Nat) (events : List WatchEvent),
      ∃ cs, (get (.ok obj) dOut clientT name ns o events).calls =
        .getCall ns name :: .watchCall ns wait_default_timeout :: cs) ∧
    (get (.ok ⟨"k", [], none⟩) (.ok ()) 120 "k" "default" none []).calls =
      [.getCall "default" "k", .watchCall "default" wait_default_timeout] ∧
    (create (.ok ()) (.ok ⟨"x", [], none⟩) (.ok ()) 60
        ⟨none, [("KERNEL_IMAGE", .vStr "img:tag"), ("KERNEL_ID", .vStr "abc123")]⟩
        (some 300) []).calls =
      [.createCall "default" "jovyan-abc123", .getCall "default" "jovyan-abc123",
        .watchCall "default" wait_default_timeout] ∧
    wait_default_timeout = 60 ∧
    pyOrTimeout none 120 = 120 ∧
    pyOrTimeout (some 300) 60 = 300 ∧
    wait_default_timeout ≠ 120 ∧
    wait_default_timeout ≠ 300 := by
  refine ⟨fun obj dOut clientT name ns o events =>
    ⟨(waitLoop dOut ns name wait_default_timeout events).2,
      get_calls_ok obj dOut clientT name ns o events⟩,
    rfl, rfl, rfl, rfl, rfl, by decide, by decide⟩

/-- C6 (counterexample): the claim — a failing cleanup delete is never
raised in place of the timeout error — is false on the code: with one
post-deadline event and a delete outcome of 500, the operation fails with
the delete's `RuntimeError`, not with the launch-timeout error. -/
theorem C6_counterexample :
    (get (.ok ⟨"k", [], none⟩) (.apiError 500 "Internal Server Error") 60 "k" "default"
        none [⟨"ADDED", ⟨"other", [], none⟩, 61⟩]).result =
      .error (.runtimeError ("Error deleting kernel: " ++ toString (500 : Nat)
        ++ "\n" ++ "Internal Server Error")) ∧
    (get (.ok ⟨"k", [], none⟩) (.apiError 500 "Internal Server Error") 60 "k" "default"
        none [⟨"ADDED", ⟨"other", [], none⟩, 61⟩]).result ≠
      .error (.runtimeError ("Kernel launch timeout. Waited too long ("
        ++ toString (60 : Nat) ++ ") to get connection info.")) := by
  refine ⟨rfl, fun h => ?_⟩
  have h2 : (Except.error (JKError.runtimeError ("Error deleting kernel: "
      ++ toString (500 : Nat) ++ "\n" ++ "Internal Server Error")) :
        Except JKError KernelSchema) =
      .error (.runtimeError ("Kernel launch timeout. Waited too long ("
        ++ toString (60 : Nat) ++ ") to get connection info.")) :=
    (rfl : (get (.ok ⟨"k", [], none⟩) (.apiError 500 "Internal Server Error") 60 "k"
      "default" none [⟨"ADDED", ⟨"other", [], none⟩, 61⟩]).result =
        .error (.runtimeError ("Error deleting kernel: " ++ toString (500 : Nat)
          ++ "\n" ++ "Internal Server Error"))).symm.trans h
  injection h2 with h3
  injection h3 with h4
  exact absurd h4 (by decide)

/-- C6 (amended): when the watch loop times out and its cleanup delete
fails with a non-404 status, the delete's `RuntimeError` propagates out of
the protocol (and out of `get`) in place of the timeout failure; the
delete call is still issued exactly once. -/
theorem C6_cleanup_failure_propagates (s : Nat) (reason : String) (ns name : String)
    (tmo : Nat) (e : WatchEvent) (rest : List WatchEvent) (getObj : KObj)
    (clientT : Nat) (o : Option Nat)
    (hproc : processEvent e name = none) (hlate : tmo < e.elapsed) (h404 : s ≠ 404) :
    (wait_for_kernel_ready (.apiError s reason) ns name tmo (e :: rest)).result =
      .error (.runtimeError ("Error deleting kernel: " ++ toString s ++ "\n" ++ reason)) ∧
    countDelete (wait_for_kernel_ready (.apiError s reason) ns name tmo (e :: rest)).calls
      ns name = 1 ∧
    (wait_default_timeout < e.elapsed →
      (get (.ok getObj) (.apiError s reason) clientT name ns o (e :: rest)).result =
        .error (.runtimeError ("Error deleting kernel: " ++ toString s ++ "\n" ++ reason))) := by
  have hd : delete (.apiError s reason) =
      .error (.runtimeError ("Error deleting kernel: " ++ toString s ++ "\n" ++ reason)) := by
    simp [delete, h404]
  refine ⟨?_, ?_, fun hlate2 => ?_⟩
  · simp [wait_for_kernel_ready, waitLoop_cons, hproc, hlate, hd]
  · simp [wait_for_kernel_ready, waitLoop_cons, hproc, hlate, hd, countDelete, isDeleteCallFor]
  · simp [get, wait_for_kernel_ready, waitLoop_cons, hproc, hlate2, hd]

/-- C6 (witness): `C6_cleanup_failure_propagates` at a concrete
post-deadline event and a 500 delete outcome. -/
theorem C6_cleanup_failure_propagates_witness :
    (wait_for_kernel_ready (.apiError 500 "Internal Server Error") "default" "k" 60
        [⟨"ADDED", ⟨"other", [], none⟩, 61⟩]).result =
      .error (.runtimeError ("Error deleting kernel: " ++ toString (500 : Nat)
        ++ "\n" ++ "Internal Server Error")) ∧
    countDelete (wait_for_kernel_ready (.apiError 500 "Internal Server Error") "default"
        "k" 60 [⟨"ADDED", ⟨"other", [], none⟩, 61⟩]).calls "default" "k" = 1 ∧
    (get (.ok ⟨"k", [], none⟩) (.apiError 500 "Internal Server Error") 60 "k" "default"
        none [⟨"ADDED", ⟨"other", [], none⟩, 61⟩]).result =
      .error (.runtimeError ("Error deleting kernel: " ++ toString (500 : Nat)
        ++ "\n" ++ "Internal Server Error")) := by
  have h := C6_cleanup_failure_propagates 500 "Internal Server Error" "default" "k" 60
    ⟨"ADDED", ⟨"other", [], none⟩, 61⟩ [] ⟨"k", [], none⟩ 60 none
    (by decide) (by decide) (by decide)
  exact ⟨h.1, h.2.1, h.2.2 (by decide)⟩

/-- C3: `create` classifies gateway failures exhaustively and exclusively:
409 redirects to `get` for the derived name and namespace with exactly one
create attempt in the whole trace; 403 raises the dedicated
`KernelCreationForbiddenError`; every other error status raises a
`RuntimeError` carrying the upstream status and reason. -/
theorem C3_create_error_classification (getOut : ApiResult KObj) (dOut : ApiResult Unit)
    (clientT : Nat) (req : CreateKernelRequest) (o : Option Nat)
    (events : List WatchEvent) (s : Nat) (reason : String)
    (himg : pyTruthyOpt (envGet req.env "KERNEL_IMAGE") = true)
    (hid : pyTruthyOpt (envGet req.env "KERNEL_ID") = true) :
    ((create (.apiError 409 reason) getOut dOut clientT req o events).result =
        (get getOut dOut clientT (kernelName req) (kernelNamespace req) none events).result ∧
      countCreate (create (.apiError 409 reason) getOut dOut clientT req o events).calls = 1) ∧
    (create (.apiError 403 reason) getOut dOut clientT req o events).result =
      .error (.forbiddenError
        "Kernel creation is forbidden (403). Check permissions or resource quota limits.") ∧
    (s ≠ 409 → s ≠ 403 →
      (create (.apiError s reason) getOut dOut clientT req o events).result =
        .error (.runtimeError ("Error creating kernel: " ++ toString s ++ "\n" ++ reason))) := by
  refine ⟨⟨?_, ?_⟩, ?_, fun h9 h3 => ?_⟩
  · unfold create
    rw [if_neg (by simp [himg]), if_neg (by simp [hid])]
    rfl
  · unfold create
    rw [if_neg (by simp [himg]), if_neg (by simp [hid])]
    dsimp only
    simpa [countCreate, isCreateCall] using
      countCreate_get getOut dOut clientT (kernelName req) (kernelNamespace req) none events
  · unfold create
    rw [if_neg (by simp [himg]), if_neg (by simp [hid])]
    rfl
  · unfold create
    rw [if_neg (by simp [himg]), if_neg (by simp [hid])]
    dsimp only
    rw [if_neg h9, if_neg h3]

/-- C3 (witness): `C3_create_error_classification` at a concrete valid
request and error status 500. -/
theorem C3_create_error_classification_witness :
    ((create (.apiError 409 "boom") (.ok ⟨"jovyan-abc123", [], none⟩) (.ok ()) 60
        ⟨none, [("KERNEL_IMAGE", .vStr "img:tag"), ("KERNEL_ID", .vStr "abc123")]⟩
        none []).result =
      (get (.ok ⟨"jovyan-abc123", [], none⟩) (.ok ()) 60 "jovyan-abc123" "default"
        none []).result) ∧
    (create (.apiError 403 "boom") (.ok ⟨"jovyan-abc123", [], none⟩) (.ok ()) 60
        ⟨none, [("KERNEL_IMAGE", .vStr "img:tag"), ("KERNEL_ID", .vStr "abc123")]⟩
        none []).result =
      .error (.forbiddenError
        "Kernel creation is forbidden (403). Check permissions or resource quota limits.") ∧
    (create (.apiError 500 "boom") (.ok ⟨"jovyan-abc123", [], none⟩) (.ok ()) 60
        ⟨none, [("KERNEL_IMAGE", .vStr "img:tag"), ("KERNEL_ID", .vStr "abc123")]⟩
        none []).result =
      .error (.runtimeError ("Error creating kernel: " ++ toString (500 : Nat)
        ++ "\n" ++ "boom")) := by
  have h := C3_create_error_classification (.ok ⟨"jovyan-abc123", [], none⟩) (.ok ()) 60
    ⟨none, [("KERNEL_IMAGE", .vStr "img:tag"), ("KERNEL_ID", .vStr "abc123")]⟩
    none [] 500 "boom" (by decide) (by decide)
  exact ⟨h.1.1, h.2.1, h.2.2 (by decide) (by decide)⟩

/-- C4: `create` validates before any gateway call — a falsy
`KERNEL_IMAGE` (or, with image present, a falsy `KERNEL_ID`) raises the
dedicated `ValueError` with an empty call trace; when both are truthy the
trace starts with the create call to the gateway. -/
theorem C4_validation_gate (createOut : ApiResult Unit) (getOut : ApiResult KObj)
    (dOut : ApiResult Unit) (clientT : Nat) (req : CreateKernelRequest)
    (o : Option Nat) (events : List WatchEvent) :
    (pyTruthyOpt (envGet req.env "KERNEL_IMAGE") = false →
      (create createOut getOut dOut clientT req o events).result =
        .error (.valueError "`KERNEL_IMAGE` must be specified") ∧
      (create createOut getOut dOut clientT req o events).calls = []) ∧
    (pyTruthyOpt (envGet req.env "KERNEL_IMAGE") = true →
      pyTruthyOpt (envGet req.env "KERNEL_ID") = false →
      (create createOut getOut dOut clientT req o events).result =
        .error (.valueError "`KERNEL_ID` must be specified") ∧
      (create createOut getOut dOut clientT req o events).calls = []) ∧
    (pyTruthyOpt (envGet req.env "KERNEL_IMAGE") = true →
      pyTruthyOpt (envGet req.env "KERNEL_ID") = true →
      ∃ rest, (create createOut getOut dOut clientT req o events).calls =
        .createCall (kernelNamespace req) (kernelName req) :: rest) := by
  refine ⟨fun h1 => ?_, fun h1 h2 => ?_, fun h1 h2 => ?_⟩
  · unfold create
    rw [if_pos h1]
    exact ⟨rfl, rfl⟩
  · unfold create
    rw [if_neg (by simp [h1]), if_pos h2]
    exact ⟨rfl, rfl⟩
  · unfold create
    rw [if_neg (by simp [h1]), if_neg (by simp [h2])]
    cases createOut with
    | ok _ => exact ⟨_, rfl⟩
    | apiError s reason =>
      dsimp only
      split_ifs <;> exact ⟨_, rfl⟩

/-- C4 (witness): `C4_validation_gate` at a request missing the image, a
request missing the id, and a fully valid request. -/
theorem C4_validation_gate_witness :
    (create (.ok ()) (.ok ⟨"x", [], none⟩) (.ok ()) 60 ⟨none, []⟩ none []).calls = [] ∧
    (create (.ok ()) (.ok ⟨"x", [], none⟩) (.ok ()) 60
        ⟨none, [("KERNEL_IMAGE", .vStr "img")]⟩ none []).result =
      .error (.valueError "`KERNEL_ID` must be specified") ∧
    ∃ rest, (create (.ok ()) (.ok ⟨"x", [], none⟩) (.ok ()) 60
        ⟨none, [("KERNEL_IMAGE", .vStr "img:tag"), ("KERNEL_ID", .vStr "abc123")]⟩
        none []).calls = .createCall "default" "jovyan-abc123" :: rest := by
  refine ⟨((C4_validation_gate (.ok ()) (.ok ⟨"x", [], none⟩) (.ok ()) 60 ⟨none, []⟩
      none []).1 (by decide)).2,
    ((C4_validation_gate (.ok ()) (.ok ⟨"x", [], none⟩) (.ok ()) 60
      ⟨none, [("KERNEL_IMAGE", .vStr "img")]⟩ none []).2.1 (by decide) (by decide)).1,
    (C4_validation_gate (.ok ()) (.ok ⟨"x", [], none⟩) (.ok ()) 60
      ⟨none, [("KERNEL_IMAGE", .vStr "img:tag"), ("KERNEL_ID", .vStr "abc123")]⟩
      none []).2.2 (by decide) (by decide)⟩

/-- C10: past validation, `create` removes `KERNEL_VOLUMES` and
`KERNEL_VOLUME_MOUNTS` from the caller's `request.env` (in every outcome
branch), leaves every other key's binding unchanged, and the built body's
container environment is exactly that popped mapping, so neither key
appears among the container environment variables. -/
theorem C10_env_pop_frame (createOut : ApiResult Unit) (getOut : ApiResult KObj)
    (dOut : ApiResult Unit) (clientT : Nat) (req : CreateKernelRequest)
    (o : Option Nat) (events : List WatchEvent)
    (himg : pyTruthyOpt (envGet req.env "KERNEL_IMAGE") = true)
    (hid : pyTruthyOpt (envGet req.env "KERNEL_ID") = true) :
    envGet (create createOut getOut dOut clientT req o events).envAfter
      "KERNEL_VOLUMES" = none ∧
    envGet (create createOut getOut dOut clientT req o events).envAfter
      "KERNEL_VOLUME_MOUNTS" = none ∧
    (∀ k : String, k ≠ "KERNEL_VOLUMES" → k ≠ "KERNEL_VOLUME_MOUNTS" →
      envGet (create createOut getOut dOut clientT req o events).envAfter k =
        envGet req.env k) ∧
    (create createOut getOut dOut clientT req o events).containerEnv =
      (create createOut getOut dOut clientT req o events).envAfter ∧
    (∀ p ∈ (create createOut getOut dOut clientT req o events).containerEnv,
      p.1 ≠ "KERNEL_VOLUMES" ∧ p.1 ≠ "KERNEL_VOLUME_MOUNTS") := by
  obtain ⟨hA, hC⟩ := create_env_fields createOut getOut dOut clientT req o events himg hid
  refine ⟨?_, ?_, fun k hk1 hk2 => ?_, hC.trans hA.symm, fun p hp => ?_⟩
  · rw [hA, envGet_envPop_other _ _ _ (by decide), envGet_envPop_self]
  · rw [hA, envGet_envPop_self]
  · rw [hA, envGet_envPop_other _ _ _ hk2, envGet_envPop_other _ _ _ hk1]
  · rw [hC] at hp
    exact ⟨fst_ne_of_mem_envPop _ _ _ (mem_of_mem_envPop _ _ _ hp),
      fst_ne_of_mem_envPop _ _ _ hp⟩

/-- C10 (witness): `C10_env_pop_frame` at a concrete request carrying both
volume keys and an unrelated key `FOO`. -/
theorem C10_env_pop_frame_witness :
    envGet (create (.ok ()) (.ok ⟨"x", [], none⟩) (.ok ()) 60
      ⟨none, [("KERNEL_IMAGE", .vStr "img"), ("KERNEL_ID", .vStr "id1"),
        ("KERNEL_VOLUMES", .vList []), ("KERNEL_VOLUME_MOUNTS", .vList []),
        ("FOO", .vStr "bar")]⟩ none []).envAfter "KERNEL_VOLUMES" = none ∧
    envGet (create (.ok ()) (.ok ⟨"x", [], none⟩) (.ok ()) 60
      ⟨none, [("KERNEL_IMAGE", .vStr "img"), ("KERNEL_ID", .vStr "id1"),
        ("KERNEL_VOLUMES", .vList []), ("KERNEL_VOLUME_MOUNTS", .vList []),
        ("FOO", .vStr "bar")]⟩ none []).envAfter "FOO" =
      envGet [("KERNEL_IMAGE", .vStr "img"), ("KERNEL_ID", .vStr "id1"),
        ("KERNEL_VOLUMES", .vList []), ("KERNEL_VOLUME_MOUNTS", .vList []),
        ("FOO", .vStr "bar")] "FOO" := by
  have h := C10_env_pop_frame (.ok ()) (.ok ⟨"x", [], none⟩) (.ok ()) 60
    ⟨none, [("KERNEL_IMAGE", .vStr "img"), ("KERNEL_ID", .vStr "id1"),
      ("KERNEL_VOLUMES", .vList []), ("KERNEL_VOLUME_MOUNTS", .vList []),
      ("FOO", .vStr "bar")]⟩ none [] (by decide) (by decide)
  exact ⟨h.1, h.2.2.1 "FOO" (by decide) (by decide)⟩

end JKClient
